import Mathlib

/-!
Shallow embedding of the netpoll descriptor-handle layer (package `netpoll`):
the `Desc` type and its constructors (`NewDesc`, `newDesc`, `Handle`,
`HandleListener`, the shorthand family, `Must`), plus the unsupported-platform
multiplexer constructor stub `New`.

Side-effecting Go calls (the `filer.File()` duplication, `syscall.SetNonblock`,
`os.File.Close`) are embedded with an explicit environment `Sys` fixing the
outcome of each OS call, and every operation additionally returns the list of
OS effects it performed, so that rollback/leak properties are statable.
-/

namespace Netpoll

/-- Errors of the embedded layer. `notFiler` is the sentinel `ErrNotFiler`
(declared outside the shown source, modelled as a distinct constructor);
`errno` is a raw `syscall.Errno`; `syscallError op e` is
`os.NewSyscallError(op, e)`; `other` is a generic `fmt.Errorf`-style error. -/
inductive GoError where
  | notFiler : GoError
  | errno : Nat → GoError
  | syscallError : String → GoError → GoError
  | other : String → GoError
deriving DecidableEq, Repr

/-- Error message rendering, mirroring the Go `Error()` strings where known. -/
def GoError.message : GoError → String
  | .notFiler => "could not get file descriptor"
  | .errno n => "errno " ++ (toString n)
  | .syscallError op e => op ++ (": " ++ e.message)
  | .other s => s

/-- Modelled from the spec: the sentinel error returned when the source object
does not satisfy the descriptor-extractor (`filer`) contract. Its declaration
is outside the shown source; the spec calls it a distinct sentinel condition. -/
def ErrNotFiler : GoError := GoError.notFiler

/-- Modelled from the spec: `Event` is an integer bit-set over the flags
`Read`, `Write`, `EdgeTriggered`, `OneShot`, composable via bitwise OR.
The flag declarations are outside the shown source; concrete distinct bit
values are chosen here. -/
abbrev Event := Nat

/-- Modelled from the spec: read-interest flag. -/
def EventRead : Event := 1

/-- Modelled from the spec: write-interest flag. -/
def EventWrite : Event := 2

/-- Modelled from the spec: one-shot delivery flag. -/
def EventOneShot : Event := 4

/-- Modelled from the spec: edge-triggered delivery flag. -/
def EventEdgeTriggered : Event := 8

/-- An `os.File`: for this layer only its stored descriptor number matters.
`fd` is the value `int(file.Fd())` yields; OS descriptors are small
non-negative ints (the sentinel for an invalid file is -1). -/
structure File where
  fd : Int
deriving DecidableEq, Repr

/-- One OS-level effect performed by an operation of this layer. -/
inductive Effect where
  | fileCall : Effect
  | setNonblock : Int → Bool → Effect
  | closeFile : Int → Effect
deriving DecidableEq, Repr

/-- The sequence of OS effects an operation performed, in order. -/
abbrev Trace := List Effect

/-- Environment fixing the outcome of each OS call: the errno returned by
`syscall.SetNonblock(fd, true)` (`none` = success) and the error returned by
`os.File.Close` on a given descriptor (`none` = success). -/
structure Sys where
  setNonblockErrno : Int → Option Nat
  closeErr : Int → Option GoError

/-- `Desc` is a network connection within netpoll descriptor. -/
structure Desc where
  file : File
  event : Event
  desc : Int
deriving DecidableEq, Repr

/-- `func (h *Desc) Fd() int`: returns the underlying file descriptor,
resolving and caching it from the file when the cache holds the sentinel -1.
State-passing embedding: returns the value and the (possibly updated)
receiver. -/
def Desc.Fd (h : Desc) : Int × Desc :=
  if h.desc = -1 then (h.file.fd, { h with desc := h.file.fd })
  else (h.desc, h)

/-- `func (h *Desc) Close() error`: closes the underlying file. The fields of
the receiver are not written; the embedding passes the receiver through
unchanged. -/
def Desc.Close (h : Desc) (sys : Sys) : Option GoError × Desc × Trace :=
  (sys.closeErr h.file.fd, h, [Effect.closeFile h.file.fd])

/-- `func newDesc(file *os.File, ev Event) (*Desc, error)`: builds the `Desc`
with the cached descriptor number `int(file.Fd())`, then forces the descriptor
into non-blocking mode via `syscall.SetNonblock(desc.Fd(), true)`; on failure
returns `os.NewSyscallError("setnonblock", err)` (the file is NOT closed
here — callers roll back). -/
def newDesc (sys : Sys) (file : File) (ev : Event) : Except GoError Desc × Trace :=
  let d : Desc := { file := file, event := ev, desc := file.fd }
  let fd := (d.Fd).1
  let d := (d.Fd).2
  match sys.setNonblockErrno fd with
  | some e =>
      (Except.error (GoError.syscallError ("setnonblock") (GoError.errno e)),
       [Effect.setNonblock fd true])
  | none => (Except.ok d, [Effect.setNonblock fd true])

/-- `func NewDesc(fd uintptr, ev Event) (*Desc, error)`: wraps the raw
descriptor in `os.NewFile(fd, "")` and delegates to `newDesc`; on failure
closes the wrapping file before returning the error. -/
def NewDesc (sys : Sys) (fd : Nat) (ev : Event) : Except GoError Desc × Trace :=
  let file : File := { fd := (fd : Int) }
  match newDesc sys file ev with
  | (Except.error e, t) => (Except.error e, t ++ [Effect.closeFile file.fd])
  | (Except.ok d, t) => (Except.ok d, t)

/-- Outcome of a call to `Must`: either the process panics with the error, or
the descriptor argument is returned. -/
inductive MustOutcome where
  | panicked : GoError → MustOutcome
  | returned : Option Desc → MustOutcome
deriving DecidableEq, Repr

/-- `func Must(desc *Desc, err error) *Desc`: panics if the error is non-nil
and returns desc if not. -/
def Must (desc : Option Desc) (err : Option GoError) : MustOutcome :=
  match err with
  | some e => MustOutcome.panicked e
  | none => MustOutcome.returned desc

/-- A source object passed to `handle` (a `net.Conn`, `net.Listener`, or any
`interface\x7b\x7d` value): `isFiler` tells whether the dynamic type satisfies
the `filer` contract (the `x.(filer)` assertion succeeds), and `fileResult` is
what `f.File()` returns when invoked on it. -/
structure Obj where
  isFiler : Bool
  fileResult : Except GoError File

/-- `func handle(x interface\x7b\x7d, event Event) (*Desc, error)`: asserts the
filer contract, duplicates the descriptor via `f.File()`, builds the `Desc`
via `newDesc`, and on `newDesc` failure closes the duplicated file. -/
def handle (sys : Sys) (x : Obj) (event : Event) : Except GoError Desc × Trace :=
  if x.isFiler then
    match x.fileResult with
    | Except.error e => (Except.error e, [Effect.fileCall])
    | Except.ok file =>
        match newDesc sys file event with
        | (Except.error e, t) =>
            (Except.error e, Effect.fileCall :: (t ++ [Effect.closeFile file.fd]))
        | (Except.ok d, t) => (Except.ok d, Effect.fileCall :: t)
  else (Except.error ErrNotFiler, [])

/-- `func Handle(conn net.Conn, event Event) (*Desc, error)`: creates a new
`Desc` with given conn and event via `handle`. -/
def Handle (sys : Sys) (conn : Obj) (event : Event) : Except GoError Desc × Trace :=
  match handle sys conn event with
  | (Except.error e, t) => (Except.error e, t)
  | (Except.ok d, t) => (Except.ok d, t)

/-- `func HandleListener(ln net.Listener, event Event) (*Desc, error)`. -/
def HandleListener (sys : Sys) (ln : Obj) (event : Event) : Except GoError Desc × Trace :=
  handle sys ln event

/-- `func HandleRead(conn net.Conn) (*Desc, error)`: same as
`Handle(conn, EventRead|EventEdgeTriggered)`. -/
def HandleRead (sys : Sys) (conn : Obj) : Except GoError Desc × Trace :=
  Handle sys conn (EventRead ||| EventEdgeTriggered)

/-- `func HandleReadOnce(conn net.Conn) (*Desc, error)`: same as
`Handle(conn, EventRead|EventOneShot)`. -/
def HandleReadOnce (sys : Sys) (conn : Obj) : Except GoError Desc × Trace :=
  Handle sys conn (EventRead ||| EventOneShot)

/-- `func HandleWrite(conn net.Conn) (*Desc, error)`: same as
`Handle(conn, EventWrite|EventEdgeTriggered)`. -/
def HandleWrite (sys : Sys) (conn : Obj) : Except GoError Desc × Trace :=
  Handle sys conn (EventWrite ||| EventEdgeTriggered)

/-- `func HandleWriteOnce(conn net.Conn) (*Desc, error)`: same as
`Handle(conn, EventWrite|EventOneShot)`. -/
def HandleWriteOnce (sys : Sys) (conn : Obj) : Except GoError Desc × Trace :=
  Handle sys conn (EventWrite ||| EventOneShot)

/-- `func HandleReadWrite(conn net.Conn) (*Desc, error)`: same as
`Handle(conn, EventRead|EventWrite|EventEdgeTriggered)`. -/
def HandleReadWrite (sys : Sys) (conn : Obj) : Except GoError Desc × Trace :=
  Handle sys conn (EventRead ||| EventWrite ||| EventEdgeTriggered)

/-- Modelled from the spec: the multiplexer configuration value consumed by
the constructor; its fields are outside the shown source and irrelevant to the
stub. -/
structure Config where

/-- Modelled from the spec: a multiplexer instance exposing start/resume/stop
operations keyed by `Desc`; never constructed on an unsupported platform. -/
structure EventPoll where
  start : Desc → Option GoError
  resume : Desc → Option GoError
  stop : Desc → Option GoError

/-- `func New(*Config) (EventPoll, error)` from `netpoll_stub.go`
(the build-tagged unsupported-platform variant): always returns
`nil, fmt.Errorf("poller is not supported on this operating system")`. -/
def New (_cfg : Config) : Option EventPoll × Option GoError :=
  (none, some (GoError.other ("poller is not supported on this operating system")))

/-!
Concrete test fixtures used by witness theorems: an environment where every
OS call succeeds, one where setting non-blocking mode fails with errno 22
(EINVAL), a filer-satisfying connection whose duplication yields descriptor 7,
a filer-satisfying connection whose duplication fails, and an object that does
not satisfy the filer contract.
-/

def okSys : Sys :=
  { setNonblockErrno := fun _ => none, closeErr := fun _ => none }

def failSnbSys : Sys :=
  { setNonblockErrno := fun _ => some 22, closeErr := fun _ => none }

def connOk : Obj :=
  { isFiler := true, fileResult := Except.ok { fd := 7 } }

def connFileErr : Obj :=
  { isFiler := true,
    fileResult := Except.error (GoError.other ("file already closed")) }

def plainObj : Obj :=
  { isFiler := false,
    fileResult := Except.error (GoError.other ("never invoked")) }

/-!
Helper lemmas characterizing each control-flow path of the embedded
constructors.
-/

/-- The descriptor cache is pre-populated with `file.fd` by `newDesc`, so the
`Fd` call inside `newDesc` returns `file.fd` and leaves the record unchanged
regardless of whether `file.fd` is the sentinel -1. -/
lemma Fd_mk (file : File) (ev : Event) :
    Desc.Fd { file := file, event := ev, desc := file.fd } =
      (file.fd, { file := file, event := ev, desc := file.fd }) := by
  unfold Desc.Fd
  by_cases h : file.fd = -1 <;> simp [h]

/-- Path of `newDesc` where `syscall.SetNonblock` succeeds. -/
lemma newDesc_snb_ok (sys : Sys) (file : File) (ev : Event)
    (h : sys.setNonblockErrno file.fd = none) :
    newDesc sys file ev =
      (Except.ok { file := file, event := ev, desc := file.fd },
       [Effect.setNonblock file.fd true]) := by
  simp [newDesc, Fd_mk, h]

/-- Path of `newDesc` where `syscall.SetNonblock` fails with errno `e`. -/
lemma newDesc_snb_err (sys : Sys) (file : File) (ev : Event) (e : Nat)
    (h : sys.setNonblockErrno file.fd = some e) :
    newDesc sys file ev =
      (Except.error (GoError.syscallError ("setnonblock") (GoError.errno e)),
       [Effect.setNonblock file.fd true]) := by
  simp [newDesc, Fd_mk, h]

/-- Path of `handle` where the source object is not a filer. -/
lemma handle_notFiler (sys : Sys) (x : Obj) (ev : Event)
    (h : x.isFiler = false) :
    handle sys x ev = (Except.error ErrNotFiler, []) := by
  simp [handle, h]

/-- Path of `handle` where `f.File()` fails. -/
lemma handle_fileErr (sys : Sys) (x : Obj) (ev : Event) (e : GoError)
    (h1 : x.isFiler = true) (h2 : x.fileResult = Except.error e) :
    handle sys x ev = (Except.error e, [Effect.fileCall]) := by
  simp [handle, h1, h2]

/-- Path of `handle` where duplication succeeds and `SetNonblock` succeeds. -/
lemma handle_ok (sys : Sys) (x : Obj) (ev : Event) (f : File)
    (h1 : x.isFiler = true) (h2 : x.fileResult = Except.ok f)
    (h3 : sys.setNonblockErrno f.fd = none) :
    handle sys x ev =
      (Except.ok { file := f, event := ev, desc := f.fd },
       [Effect.fileCall, Effect.setNonblock f.fd true]) := by
  simp [handle, h1, h2, newDesc_snb_ok sys f ev h3]

/-- Path of `handle` where duplication succeeds and `SetNonblock` fails:
the duplicated file is closed and the wrapped error is returned. -/
lemma handle_snb_err (sys : Sys) (x : Obj) (ev : Event) (f : File) (e : Nat)
    (h1 : x.isFiler = true) (h2 : x.fileResult = Except.ok f)
    (h3 : sys.setNonblockErrno f.fd = some e) :
    handle sys x ev =
      (Except.error (GoError.syscallError ("setnonblock") (GoError.errno e)),
       [Effect.fileCall, Effect.setNonblock f.fd true, Effect.closeFile f.fd]) := by
  simp [handle, h1, h2, newDesc_snb_err sys f ev e h3]

/-- `Handle` is the identity re-wrapping of `handle`. -/
lemma Handle_eq_handle (sys : Sys) (conn : Obj) (ev : Event) :
    Handle sys conn ev = handle sys conn ev := by
  unfold Handle
  rcases hh : handle sys conn ev with ⟨e | d, t⟩ <;> simp [hh]

/-- Inversion: a successful `handle` call pins down every component. -/
lemma handle_ok_inv (sys : Sys) (x : Obj) (ev : Event) (d : Desc) (t : Trace)
    (h : handle sys x ev = (Except.ok d, t)) :
    x.isFiler = true ∧
    ∃ f, x.fileResult = Except.ok f ∧ sys.setNonblockErrno f.fd = none ∧
      d = { file := f, event := ev, desc := f.fd } ∧
      t = [Effect.fileCall, Effect.setNonblock f.fd true] := by
  by_cases hf : x.isFiler
  · refine ⟨hf, ?_⟩
    cases hx : x.fileResult with
    | error e =>
        rw [handle_fileErr sys x ev e hf hx] at h
        simp at h
    | ok f =>
        cases hs : sys.setNonblockErrno f.fd with
        | none =>
            rw [handle_ok sys x ev f hf hx hs] at h
            simp only [Prod.mk.injEq, Except.ok.injEq] at h
            exact ⟨f, rfl, hs, h.1.symm, h.2.symm⟩
        | some e =>
            rw [handle_snb_err sys x ev f e hf hx hs] at h
            simp at h
  · rw [handle_notFiler sys x ev (by simpa using hf)] at h
    simp at h

/-- Path of `NewDesc` where `SetNonblock` succeeds. -/
lemma NewDesc_snb_ok (sys : Sys) (fd : Nat) (ev : Event)
    (h : sys.setNonblockErrno (fd : Int) = none) :
    NewDesc sys fd ev =
      (Except.ok { file := { fd := (fd : Int) }, event := ev, desc := (fd : Int) },
       [Effect.setNonblock (fd : Int) true]) := by
  simp [NewDesc, newDesc_snb_ok sys { fd := (fd : Int) } ev h]

/-- Path of `NewDesc` where `SetNonblock` fails: the wrapping file is closed
after the failure and before returning. -/
lemma NewDesc_snb_err (sys : Sys) (fd : Nat) (ev : Event) (e : Nat)
    (h : sys.setNonblockErrno (fd : Int) = some e) :
    NewDesc sys fd ev =
      (Except.error (GoError.syscallError ("setnonblock") (GoError.errno e)),
       [Effect.setNonblock (fd : Int) true, Effect.closeFile (fd : Int)]) := by
  simp [NewDesc, newDesc_snb_err sys { fd := (fd : Int) } ev e h]

/-- Inversion: a successful `NewDesc` call pins down every component. -/
lemma NewDesc_ok_inv (sys : Sys) (fd : Nat) (ev : Event) (d : Desc) (t : Trace)
    (h : NewDesc sys fd ev = (Except.ok d, t)) :
    sys.setNonblockErrno (fd : Int) = none ∧
    d = { file := { fd := (fd : Int) }, event := ev, desc := (fd : Int) } ∧
    t = [Effect.setNonblock (fd : Int) true] := by
  cases hs : sys.setNonblockErrno (fd : Int) with
  | none =>
      rw [NewDesc_snb_ok sys fd ev hs] at h
      simp only [Prod.mk.injEq, Except.ok.injEq] at h
      exact ⟨rfl, h.1.symm, h.2.symm⟩
  | some e =>
      rw [NewDesc_snb_err sys fd ev e hs] at h
      simp at h

/-!
Claim theorems.
-/

/-- C1: for every source object and event interest, if extraction of the
duplicated file succeeds but forcing it into non-blocking mode fails, `handle`
(and likewise `NewDesc` for a raw descriptor) closes the duplicated file
before returning, returns an error wrapped with the "setnonblock" operation
name, and returns no `Desc`. -/
theorem C1_setnonblock_failure_rolls_back (sys : Sys) (ev : Event) (e : Nat) :
    (∀ (x : Obj) (f : File), x.isFiler = true → x.fileResult = Except.ok f →
        sys.setNonblockErrno f.fd = some e →
        handle sys x ev =
          (Except.error (GoError.syscallError ("setnonblock") (GoError.errno e)),
           [Effect.fileCall, Effect.setNonblock f.fd true,
            Effect.closeFile f.fd])) ∧
    (∀ fd : Nat, sys.setNonblockErrno (fd : Int) = some e →
        NewDesc sys fd ev =
          (Except.error (GoError.syscallError ("setnonblock") (GoError.errno e)),
           [Effect.setNonblock (fd : Int) true, Effect.closeFile (fd : Int)])) :=
  ⟨fun x f h1 h2 h3 => handle_snb_err sys x ev f e h1 h2 h3,
   fun fd h => NewDesc_snb_err sys fd ev e h⟩

/-- C1 witness: with an environment failing `SetNonblock` with errno 22, the
failure path of `handle` and of `NewDesc` is evaluated at concrete inputs. -/
theorem C1_setnonblock_failure_rolls_back_witness :
    handle failSnbSys connOk 1 =
      (Except.error (GoError.syscallError ("setnonblock") (GoError.errno 22)),
       [Effect.fileCall, Effect.setNonblock 7 true, Effect.closeFile 7]) ∧
    NewDesc failSnbSys 7 1 =
      (Except.error (GoError.syscallError ("setnonblock") (GoError.errno 22)),
       [Effect.setNonblock 7 true, Effect.closeFile 7]) :=
  ⟨(C1_setnonblock_failure_rolls_back failSnbSys 1 22).1 connOk { fd := 7 }
      rfl rfl rfl,
   (C1_setnonblock_failure_rolls_back failSnbSys 1 22).2 7 rfl⟩

/-- C2: every successful construction, through any entry point, has applied
`SetNonblock(fd, true)` to the descriptor of the returned `Desc` before it was
returned (the effect is in the performed trace). -/
theorem C2_success_implies_nonblocking (sys : Sys) :
    (∀ (x : Obj) (ev : Event) (d : Desc) (t : Trace),
        handle sys x ev = (Except.ok d, t) →
        Effect.setNonblock d.file.fd true ∈ t) ∧
    (∀ (conn : Obj) (ev : Event) (d : Desc) (t : Trace),
        Handle sys conn ev = (Except.ok d, t) →
        Effect.setNonblock d.file.fd true ∈ t) ∧
    (∀ (ln : Obj) (ev : Event) (d : Desc) (t : Trace),
        HandleListener sys ln ev = (Except.ok d, t) →
        Effect.setNonblock d.file.fd true ∈ t) ∧
    (∀ (fd : Nat) (ev : Event) (d : Desc) (t : Trace),
        NewDesc sys fd ev = (Except.ok d, t) →
        Effect.setNonblock d.file.fd true ∈ t) ∧
    (∀ (conn : Obj) (d : Desc) (t : Trace),
        HandleRead sys conn = (Except.ok d, t) →
        Effect.setNonblock d.file.fd true ∈ t) ∧
    (∀ (conn : Obj) (d : Desc) (t : Trace),
        HandleReadOnce sys conn = (Except.ok d, t) →
        Effect.setNonblock d.file.fd true ∈ t) ∧
    (∀ (conn : Obj) (d : Desc) (t : Trace),
        HandleWrite sys conn = (Except.ok d, t) →
        Effect.setNonblock d.file.fd true ∈ t) ∧
    (∀ (conn : Obj) (d : Desc) (t : Trace),
        HandleWriteOnce sys conn = (Except.ok d, t) →
        Effect.setNonblock d.file.fd true ∈ t) ∧
    (∀ (conn : Obj) (d : Desc) (t : Trace),
        HandleReadWrite sys conn = (Except.ok d, t) →
        Effect.setNonblock d.file.fd true ∈ t) := by
  have core : ∀ (x : Obj) (ev : Event) (d : Desc) (t : Trace),
      handle sys x ev = (Except.ok d, t) →
      Effect.setNonblock d.file.fd true ∈ t := by
    intro x ev d t h
    obtain ⟨-, f, -, -, hd, ht⟩ := handle_ok_inv sys x ev d t h
    subst hd
    subst ht
    simp
  have coreH : ∀ (x : Obj) (ev : Event) (d : Desc) (t : Trace),
      Handle sys x ev = (Except.ok d, t) →
      Effect.setNonblock d.file.fd true ∈ t := by
    intro x ev d t h
    rw [Handle_eq_handle] at h
    exact core x ev d t h
  refine ⟨core, coreH, core, ?_, ?_, ?_, ?_, ?_, ?_⟩
  · intro fd ev d t h
    obtain ⟨-, hd, ht⟩ := NewDesc_ok_inv sys fd ev d t h
    subst hd
    subst ht
    simp
  · intro conn d t h
    exact coreH conn (EventRead ||| EventEdgeTriggered) d t h
  · intro conn d t h
    exact coreH conn (EventRead ||| EventOneShot) d t h
  · intro conn d t h
    exact coreH conn (EventWrite ||| EventEdgeTriggered) d t h
  · intro conn d t h
    exact coreH conn (EventWrite ||| EventOneShot) d t h
  · intro conn d t h
    exact coreH conn (EventRead ||| EventWrite ||| EventEdgeTriggered) d t h

/-- C2 witness: a concrete successful `handle` call has the non-blocking
effect in its trace. -/
theorem C2_success_implies_nonblocking_witness :
    Effect.setNonblock 7 true ∈
      [Effect.fileCall, Effect.setNonblock 7 true] :=
  (C2_success_implies_nonblocking okSys).1 connOk 1
    { file := { fd := 7 }, event := 1, desc := 7 }
    [Effect.fileCall, Effect.setNonblock 7 true]
    (handle_ok okSys connOk 1 { fd := 7 } rfl rfl rfl)

/-- C3: for every input object that does not satisfy the filer contract,
`handle`, `Handle` and `HandleListener` return the sentinel `ErrNotFiler` and
no `Desc`, with an empty effect trace (no extraction attempted, no resource
touched); the sentinel is distinct from every syscall, errno and generic
error. -/
theorem C3_not_filer_sentinel (sys : Sys) (x : Obj) (ev : Event)
    (h : x.isFiler = false) :
    handle sys x ev = (Except.error ErrNotFiler, []) ∧
    Handle sys x ev = (Except.error ErrNotFiler, []) ∧
    HandleListener sys x ev = (Except.error ErrNotFiler, []) ∧
    (∀ op e, ErrNotFiler ≠ GoError.syscallError op e) ∧
    (∀ n, ErrNotFiler ≠ GoError.errno n) ∧
    (∀ s, ErrNotFiler ≠ GoError.other s) := by
  refine ⟨handle_notFiler sys x ev h, ?_, handle_notFiler sys x ev h,
    ?_, ?_, ?_⟩
  · rw [Handle_eq_handle]
    exact handle_notFiler sys x ev h
  · intro op e hc
    exact GoError.noConfusion hc
  · intro n hc
    exact GoError.noConfusion hc
  · intro s hc
    exact GoError.noConfusion hc

/-- C3 witness: the non-filer path evaluated at a concrete object. -/
theorem C3_not_filer_sentinel_witness :
    handle okSys plainObj 1 = (Except.error ErrNotFiler, []) ∧
    HandleListener okSys plainObj 1 = (Except.error ErrNotFiler, []) :=
  ⟨(C3_not_filer_sentinel okSys plainObj 1 rfl).1,
   (C3_not_filer_sentinel okSys plainObj 1 rfl).2.2.1⟩

/-- The stream-connection shorthand constructors, in source order. -/
def shorthandFamily : List (Sys → Obj → Except GoError Desc × Trace) :=
  [HandleRead, HandleReadOnce, HandleWrite, HandleWriteOnce, HandleReadWrite]

/-- C4 counterexample: the shorthand family does not consist of four
shorthands — the source defines five (`HandleRead`, `HandleReadOnce`,
`HandleWrite`, `HandleWriteOnce`, `HandleReadWrite`). -/
theorem C4_shorthand_family_counterexample : shorthandFamily.length ≠ 4 := by
  decide

/-- C4 (amended): the shorthand family consists of five shorthands, each
behaving identically to the general `Handle` called on the same connection
with the corresponding composed event interest, and the edge-triggered
interests do not collide with the one-shot ones. -/
theorem C4_shorthand_family_amended (sys : Sys) (conn : Obj) :
    shorthandFamily.length = 5 ∧
    HandleRead sys conn = Handle sys conn (EventRead ||| EventEdgeTriggered) ∧
    HandleReadOnce sys conn = Handle sys conn (EventRead ||| EventOneShot) ∧
    HandleWrite sys conn = Handle sys conn (EventWrite ||| EventEdgeTriggered) ∧
    HandleWriteOnce sys conn = Handle sys conn (EventWrite ||| EventOneShot) ∧
    HandleReadWrite sys conn =
      Handle sys conn (EventRead ||| EventWrite ||| EventEdgeTriggered) ∧
    EventRead ||| EventEdgeTriggered ≠ EventRead ||| EventOneShot ∧
    EventWrite ||| EventEdgeTriggered ≠ EventWrite ||| EventOneShot :=
  ⟨rfl, rfl, rfl, rfl, rfl, rfl, by decide, by decide⟩

/-- C5: on a platform with no supported multiplexer implementation, `New`
called with any configuration returns no instance and a non-nil error whose
message is "poller is not supported on this operating system", which contains
both "poller" and "not supported on this operating system". -/
theorem C5_unsupported_platform (cfg : Config) :
    (New cfg).1 = none ∧
    ∃ e, (New cfg).2 = some e ∧
      GoError.message e = "poller is not supported on this operating system" ∧
      (∃ a b, GoError.message e =
        a ++ ("not supported on this operating system" ++ b)) ∧
      (∃ a b, GoError.message e = a ++ ("poller" ++ b)) :=
  ⟨rfl,
   GoError.other ("poller is not supported on this operating system"),
   rfl, rfl,
   ⟨"poller is ", "", by decide⟩,
   ⟨"", " is not supported on this operating system", by decide⟩⟩

/-- C6: `Fd` is idempotent: a second call on the receiver returned by a first
call returns the same value and the same receiver; if the cache is set the
cached value is returned unchanged, and if the cache holds the sentinel -1 it
is resolved from the underlying file. -/
theorem C6_Fd_stable (h : Desc) :
    (h.Fd.2).Fd = h.Fd ∧
    (h.desc ≠ -1 → h.Fd = (h.desc, h)) ∧
    (h.desc = -1 → h.Fd = (h.file.fd, { h with desc := h.file.fd })) := by
  refine ⟨?_, ?_, ?_⟩
  · unfold Desc.Fd
    by_cases hd : h.desc = -1 <;> by_cases hf : h.file.fd = -1 <;>
      simp [hd, hf]
  · intro hd
    simp [Desc.Fd, hd]
  · intro hd
    simp [Desc.Fd, hd]

/-- C6 witness: `Fd` evaluated on a concrete unset-cache descriptor record
and a concrete pre-populated one. -/
theorem C6_Fd_stable_witness :
    Desc.Fd { file := { fd := 5 }, event := 1, desc := -1 } =
      (5, { file := { fd := 5 }, event := 1, desc := 5 }) ∧
    Desc.Fd { file := { fd := 5 }, event := 1, desc := 5 } =
      (5, { file := { fd := 5 }, event := 1, desc := 5 }) :=
  ⟨(C6_Fd_stable { file := { fd := 5 }, event := 1, desc := -1 }).2.2 rfl,
   (C6_Fd_stable { file := { fd := 5 }, event := 1, desc := 5 }).2.1
     (by decide)⟩

/-- C7: for every source object satisfying the filer contract, if the
extraction call fails, `handle` (and `Handle`, `HandleListener`) returns no
`Desc` and that error unchanged, and performs no effect beyond the single
extraction attempt (no retry, no rollback close). -/
theorem C7_extraction_error_verbatim (sys : Sys) (x : Obj) (ev : Event)
    (e : GoError) (h1 : x.isFiler = true)
    (h2 : x.fileResult = Except.error e) :
    handle sys x ev = (Except.error e, [Effect.fileCall]) ∧
    Handle sys x ev = (Except.error e, [Effect.fileCall]) ∧
    HandleListener sys x ev = (Except.error e, [Effect.fileCall]) := by
  refine ⟨handle_fileErr sys x ev e h1 h2, ?_,
    handle_fileErr sys x ev e h1 h2⟩
  rw [Handle_eq_handle]
  exact handle_fileErr sys x ev e h1 h2

/-- C7 witness: the extraction-failure path evaluated at a concrete
connection whose duplication fails. -/
theorem C7_extraction_error_verbatim_witness :
    handle okSys connFileErr 1 =
      (Except.error (GoError.other ("file already closed")),
       [Effect.fileCall]) :=
  (C7_extraction_error_verbatim okSys connFileErr 1
    (GoError.other ("file already closed")) rfl rfl).1

/-- C8: neither `Close` nor `Fd` modifies the `file` or `event` field of a
`Desc`; `Close` leaves the whole record unchanged and `Fd` may write only the
cached descriptor-number field. -/
theorem C8_fields_immutable (h : Desc) (sys : Sys) :
    (h.Close sys).2.1 = h ∧
    (h.Fd.2).file = h.file ∧
    (h.Fd.2).event = h.event := by
  refine ⟨rfl, ?_, ?_⟩ <;>
    · unfold Desc.Fd
      by_cases hd : h.desc = -1 <;> simp [hd]

/-- C9: `Must` panics exactly when the error is non-nil, and otherwise
returns the descriptor argument unchanged. -/
theorem C9_Must_panics_iff (d : Option Desc) (err : Option GoError) :
    ((∃ e, Must d err = MustOutcome.panicked e) ↔ err ≠ none) ∧
    (err = none → Must d err = MustOutcome.returned d) ∧
    (∀ e, err = some e → Must d err = MustOutcome.panicked e) := by
  cases err <;> simp [Must]

/-- C9 witness: `Must` evaluated on a nil error and on a concrete non-nil
error. -/
theorem C9_Must_panics_iff_witness :
    Must (some { file := { fd := 3 }, event := 1, desc := 3 }) none =
      MustOutcome.returned (some { file := { fd := 3 }, event := 1, desc := 3 }) ∧
    Must none (some ErrNotFiler) = MustOutcome.panicked ErrNotFiler :=
  ⟨(C9_Must_panics_iff
      (some { file := { fd := 3 }, event := 1, desc := 3 }) none).2.1 rfl,
   (C9_Must_panics_iff none (some ErrNotFiler)).2.2 ErrNotFiler rfl⟩

/-- C10: `NewDesc` takes ownership of the caller-supplied raw descriptor even
on failure: if non-blocking coercion fails, the file wrapping that descriptor
is closed before the error is returned. -/
theorem C10_NewDesc_owns_fd_on_failure (sys : Sys) (fd : Nat) (ev : Event)
    (e : Nat) (h : sys.setNonblockErrno (fd : Int) = some e) :
    NewDesc sys fd ev =
      (Except.error (GoError.syscallError ("setnonblock") (GoError.errno e)),
       [Effect.setNonblock (fd : Int) true, Effect.closeFile (fd : Int)]) ∧
    Effect.closeFile (fd : Int) ∈ (NewDesc sys fd ev).2 := by
  have he := NewDesc_snb_err sys fd ev e h
  refine ⟨he, ?_⟩
  rw [he]
  simp

/-- C10 witness: the failing `NewDesc` path evaluated at a concrete raw
descriptor. -/
theorem C10_NewDesc_owns_fd_on_failure_witness :
    NewDesc failSnbSys 9 2 =
      (Except.error (GoError.syscallError ("setnonblock") (GoError.errno 22)),
       [Effect.setNonblock 9 true, Effect.closeFile 9]) ∧
    Effect.closeFile 9 ∈ (NewDesc failSnbSys 9 2).2 :=
  C10_NewDesc_owns_fd_on_failure failSnbSys 9 2 22 rfl

end Netpoll
